import Mathlib

/-!
Verification of the uptane-server object-sync and namespace-lifecycle routers.

Shallow embedding of:
  * `src/unnamed/part_000`  — team-scoped treehub router (POST/HEAD/GET objects);
  * `src/unnamed/part_001`  — namespace-scoped treehub router (PUT/GET objects)
    and the admin router variant that also provisions a per-namespace root CA;
  * `src/unnamed/part_002`  — single-metadata admin router variant;
  * `src/src/modules/admin/index.ts` — main admin router (namespace create /
    list / delete, provisioning credentials, rollouts).

Stores (Postgres via prisma, the key store and the blob store) are embedded as
association lists inside explicit state records; each handler is a function
from state and request data to (state, result, trace of store operations).
`prisma.$transaction(async tx => ...)` is embedded with its documented
semantics: if the callback rejects (here: a blob-store call failing), every
statement issued through `tx` is rolled back and the error propagates.
-/

set_option maxHeartbeats 1000000

namespace Uptane

/-- Upload status of an object row (prisma enums `UploadStatus` in part_000,
`ObjectStatus` in part_001; both have the same two members). -/
inductive ObjectStatus where
  | uploading
  | uploaded
deriving DecidableEq

/-- Object row of the namespace-scoped treehub router (part_001).  The source
column `namespace` is a reserved word in Lean and is embedded as `ns`. -/
structure ObjRow1 where
  ns : String
  object_id : String
  size : Int
  status : ObjectStatus
deriving DecidableEq

/-- Object row of the team-scoped treehub router (part_000). -/
structure ObjRow0 where
  team_id : String
  object_id : String
  size : Int
  status : ObjectStatus
deriving DecidableEq

/-- Result of a handler: an HTTP response (status, body, content-type header)
or an unhandled rejection (an exception escaping the async handler, e.g. a
rejected `prisma.$transaction`). -/
inductive HResult where
  | res (status : Nat) (body : Option String) (ctype : Option String)
  | unhandled
deriving DecidableEq

/-- Trace entry: one call issued against one of the three stores.  Blob keys
are recorded exactly as the code builds them (`blobPut`/`blobGet` for the
one-string-key driver of part_001, `blobPut2`/`blobGet2` for the
(bucket, key) driver of part_000 and the admin router). -/
inductive StoreOp where
  | teamCount (t : String)
  | nsCount (n : String)
  | objFind (ns oid : String)
  | objUpsert (ns oid : String)
  | objUpdate (ns oid : String)
  | blobPut (key : String)
  | blobGet (key : String)
  | blobPut2 (bucket key : String)
  | blobGet2 (bucket key : String)
  | keyGet (id : String)
  | keyPut (id : String)
deriving DecidableEq

/-! ### JS numeric parsing of the content-length header -/

/-- Digit value of a character under the given radix (10 or 16), as JS
`parseInt` accepts them. -/
def digitVal? (radix : Nat) (c : Char) : Option Nat :=
  if c.isDigit then some (c.toNat - 48)
  else if radix = 16 ∧ 'a' ≤ c ∧ c ≤ 'f' then some (c.toNat - 87)
  else if radix = 16 ∧ 'A' ≤ c ∧ c ≤ 'F' then some (c.toNat - 55)
  else none

/-- Value of the leading digit run of a character list; `none` when there is
no leading digit (JS NaN). -/
def digitsVal (radix : Nat) (cs : List Char) : Option Nat :=
  let ds := cs.takeWhile (fun c => (digitVal? radix c).isSome)
  if ds.isEmpty then none
  else some (ds.foldl (fun a c => a * radix + ((digitVal? radix c).getD 0)) 0)

/-- JS `parseInt(req.get('content-length')!)`: an absent header or a string
with no leading digits yields NaN (embedded as `none`); otherwise the integer
read from the leading digits, honouring sign and the `0x` hex form. -/
def parseIntJS : Option String → Option Int
  | none => none
  | some s =>
    let cs0 := s.data.dropWhile (fun c => c.isWhitespace)
    let signed : Bool × List Char :=
      match cs0 with
      | '-' :: r => (true, r)
      | '+' :: r => (false, r)
      | cs => (false, cs)
    let based : Nat × List Char :=
      match signed.2 with
      | '0' :: 'x' :: r => (16, r)
      | '0' :: 'X' :: r => (16, r)
      | cs => (10, cs)
    match digitsVal based.1 based.2 with
    | none => none
    | some v => some (if signed.1 then -(v : Int) else (v : Int))

/-! ### Store primitives (association lists) -/

/-- `prisma.object.findUnique` keyed by `namespace_object_id` (part_001). -/
def findObject1 (l : List ObjRow1) (ns oid : String) : Option ObjRow1 :=
  l.find? (fun r => r.ns == ns && r.object_id == oid)

/-- `prisma.object.findUnique` keyed by `team_id_object_id` (part_000). -/
def findObject0 (l : List ObjRow0) (tid oid : String) : Option ObjRow0 :=
  l.find? (fun r => r.team_id == tid && r.object_id == oid)

/-- `tx.object.upsert`: create the row with status `uploading` if absent,
otherwise overwrite its size and status (part_001 shape). -/
def upsertObject1 (l : List ObjRow1) (ns oid : String) (size : Int) : List ObjRow1 :=
  if (findObject1 l ns oid).isSome then
    l.map (fun r => if r.ns == ns && r.object_id == oid then ⟨ns, oid, size, .uploading⟩ else r)
  else l ++ [⟨ns, oid, size, .uploading⟩]

/-- `tx.object.update` of the status field (part_001 shape). -/
def updateStatus1 (l : List ObjRow1) (ns oid : String) (st : ObjectStatus) : List ObjRow1 :=
  l.map (fun r => if r.ns == ns && r.object_id == oid then ⟨r.ns, r.object_id, r.size, st⟩ else r)

/-- `tx.object.upsert` (part_000 shape, keyed by team). -/
def upsertObject0 (l : List ObjRow0) (tid oid : String) (size : Int) : List ObjRow0 :=
  if (findObject0 l tid oid).isSome then
    l.map (fun r => if r.team_id == tid && r.object_id == oid then ⟨tid, oid, size, .uploading⟩ else r)
  else l ++ [⟨tid, oid, size, .uploading⟩]

/-- `tx.object.update` of the status field (part_000 shape). -/
def updateStatus0 (l : List ObjRow0) (tid oid : String) (st : ObjectStatus) : List ObjRow0 :=
  l.map (fun r => if r.team_id == tid && r.object_id == oid then ⟨r.team_id, r.object_id, r.size, st⟩ else r)

/-- Blob store with a single string key (part_001 driver): put overwrites or
appends. -/
def putBlob (bl : List (String × String)) (k v : String) : List (String × String) :=
  if (bl.find? (fun b => b.1 == k)).isSome then
    bl.map (fun b => if b.1 == k then (k, v) else b)
  else bl ++ [(k, v)]

/-- Blob store lookup with a single string key (part_001 driver). -/
def getBlob (bl : List (String × String)) (k : String) : Option String :=
  (bl.find? (fun b => b.1 == k)).map (fun b => b.2)

/-- Blob store with a (bucket, key) pair key (part_000 / admin driver). -/
def putBlob2 (bl : List ((String × String) × String)) (bk k v : String) :
    List ((String × String) × String) :=
  if (bl.find? (fun b => b.1.1 == bk && b.1.2 == k)).isSome then
    bl.map (fun b => if b.1.1 == bk && b.1.2 == k then ((bk, k), v) else b)
  else bl ++ [((bk, k), v)]

/-- Blob store lookup with a (bucket, key) pair key. -/
def getBlob2 (bl : List ((String × String) × String)) (bk k : String) : Option String :=
  (bl.find? (fun b => b.1.1 == bk && b.1.2 == k)).map (fun b => b.2)

/-- Key store `putKey`: overwrite or append. -/
def putKeyVal (ks : List (String × String)) (kid v : String) : List (String × String) :=
  if (ks.find? (fun p => p.1 == kid)).isSome then
    ks.map (fun p => if p.1 == kid then (kid, v) else p)
  else ks ++ [(kid, v)]

/-- Key store `getKey`. -/
def getKeyVal (ks : List (String × String)) (kid : String) : Option String :=
  (ks.find? (fun p => p.1 == kid)).map (fun p => p.2)

/-- Key store `deleteKey`. -/
def deleteKeyVal (ks : List (String × String)) (kid : String) : List (String × String) :=
  ks.filter (fun p => !(p.1 == kid))

/-! ### Namespace-scoped treehub router (part_001) -/

/-- State touched by the namespace-scoped treehub router: namespace rows
(ids), object rows, and the single-key blob store. -/
structure St1 where
  nss : List String
  objects : List ObjRow1
  blobs : List (String × String)
deriving DecidableEq

/-- Blob storage key built by the part_001 upload and download handlers:
`namespace + '/' + prefix + '/' + suffix`. -/
def bucketId1 (ns pfx sfx : String) : String :=
  ns ++ "/" ++ pfx ++ "/" ++ sfx

/-- PUT `/:namespace/objects/:prefix/:suffix` (part_001).  `blobOk` injects
whether `blobStorage.putObject` succeeds.  The handler validates the declared
content length, then runs a `prisma.$transaction` that upserts the row to
`uploading`, writes the blob, and updates the row to `uploaded`; a blob
failure rejects the transaction, rolling the relational writes back, and the
error escapes the handler.  No namespace-existence check is performed. -/
def uploadPut (s : St1) (ns pfx sfx content : String) (clen : Option String)
    (blobOk : Bool) : St1 × HResult × List StoreOp :=
  match parseIntJS clen with
  | none => (s, .res 400 none none, [])
  | some size =>
    if size = 0 then (s, .res 400 none none, [])
    else
      let oid := pfx ++ sfx
      let bucketId := bucketId1 ns pfx sfx
      if blobOk then
        (⟨s.nss,
          updateStatus1 (upsertObject1 s.objects ns oid size) ns oid .uploaded,
          putBlob s.blobs bucketId content⟩,
         .res 200 none none,
         [.objUpsert ns oid, .blobPut bucketId, .objUpdate ns oid])
      else
        (s, .unhandled, [.objUpsert ns oid, .blobPut bucketId])

/-- GET `/:namespace/objects/:prefix/:suffix` (part_001): 404 if no row,
500 if a row is present but the blob store returns nothing, else 200 with the
raw bytes and an `application/octet-stream` content type. -/
def downloadGet (s : St1) (ns pfx sfx : String) : St1 × HResult × List StoreOp :=
  let oid := pfx ++ sfx
  let bucketId := bucketId1 ns pfx sfx
  match findObject1 s.objects ns oid with
  | none => (s, .res 404 none none, [.objFind ns oid])
  | some _ =>
    match getBlob s.blobs bucketId with
    | none => (s, .res 500 none none, [.objFind ns oid, .blobGet bucketId])
    | some c =>
      (s, .res 200 (some c) (some "application/octet-stream"),
       [.objFind ns oid, .blobGet bucketId])

/-! ### Team-scoped treehub router (part_000) -/

/-- State touched by the team-scoped treehub router: team rows (ids), object
rows, and the (bucket, key) blob store. -/
structure St0 where
  teams : List String
  objects : List ObjRow0
  blobs : List ((String × String) × String)
deriving DecidableEq

/-- POST `/:team_id/objects/:prefix/:suffix` (part_000): validates the size,
rejects unknown teams with 400, then the same transaction as `uploadPut` but
writing the blob under bucket `teamID`, key `treehub/prefix/suffix`, answering
204. -/
def uploadPost (s : St0) (teamID pfx sfx content : String) (clen : Option String)
    (blobOk : Bool) : St0 × HResult × List StoreOp :=
  match parseIntJS clen with
  | none => (s, .res 400 none none, [])
  | some size =>
    if size = 0 then (s, .res 400 none none, [])
    else
      let oid := pfx ++ sfx
      if s.teams.countP (fun t => t == teamID) = 0 then
        (s, .res 400 (some "could not upload ostree object") none, [.teamCount teamID])
      else
        let key := "treehub/" ++ pfx ++ "/" ++ sfx
        if blobOk then
          (⟨s.teams,
            updateStatus0 (upsertObject0 s.objects teamID oid size) teamID oid .uploaded,
            putBlob2 s.blobs teamID key content⟩,
           .res 204 none none,
           [.teamCount teamID, .objUpsert teamID oid, .blobPut2 teamID key, .objUpdate teamID oid])
        else
          (s, .unhandled, [.teamCount teamID, .objUpsert teamID oid, .blobPut2 teamID key])

/-- HEAD `/:team_id/objects/:prefix/:suffix` (part_000): answered from the
relational store only — 200 if the row exists (any status), 404 otherwise. -/
def headObject (s : St0) (teamID pfx sfx : String) : St0 × HResult × List StoreOp :=
  let oid := pfx ++ sfx
  match findObject0 s.objects teamID oid with
  | none => (s, .res 404 none none, [.objFind teamID oid])
  | some _ => (s, .res 200 none none, [.objFind teamID oid])

/-- GET `/objects/:prefix/:suffix` (part_000, `team_id` from the robot gateway
payload): 404 if no row; otherwise fetches bucket `team_id`, key
`treehub/prefix/suffix`, answering 500 when the fetch fails (caught) and 200
with the bytes and `application/octet-stream` otherwise. -/
def downloadGet0 (s : St0) (team_id pfx sfx : String) : St0 × HResult × List StoreOp :=
  let oid := pfx ++ sfx
  let key := "treehub/" ++ pfx ++ "/" ++ sfx
  match findObject0 s.objects team_id oid with
  | none => (s, .res 404 none none, [.objFind team_id oid])
  | some _ =>
    match getBlob2 s.blobs team_id key with
    | none => (s, .res 500 none none, [.objFind team_id oid, .blobGet2 team_id key])
    | some c =>
      (s, .res 200 (some c) (some "application/octet-stream"),
       [.objFind team_id oid, .blobGet2 team_id key])

/-! ### Admin router (src/src/modules/admin/index.ts) -/

/-- TUF repository kind (`@prisma/client` enum `TUFRepo`). -/
inductive TUFRepo where
  | image
  | director
deriving DecidableEq

/-- TUF role (`@prisma/client` enum `TUFRole`). -/
inductive TUFRole where
  | root
  | targets
  | snapshot
  | timestamp
deriving DecidableEq

/-- Which half of a key pair a key-store record holds. -/
inductive KeyUse where
  | kpriv
  | kpub
deriving DecidableEq

/-- String form of a repo kind as it appears in key identifiers. -/
def repoName : TUFRepo → String
  | .image => "image"
  | .director => "director"

/-- String form of a role as it appears in key identifiers. -/
def roleName : TUFRole → String
  | .root => "root"
  | .targets => "targets"
  | .snapshot => "snapshot"
  | .timestamp => "timestamp"

/-- String form of a key use as it appears in key identifiers. -/
def useName : KeyUse → String
  | .kpriv => "private"
  | .kpub => "public"

/-- Deterministic key-store identifier reconstructed from
(namespace_id, repo, role, use) alone: the template
`{namespace_id}-{repo}-{role}-{private|public}`. -/
def keyId (nsid : String) (r : TUFRepo) (ro : TUFRole) (u : KeyUse) : String :=
  nsid ++ ("-" ++ repoName r ++ "-" ++ roleName ro ++ "-" ++ useName u)

/-- Fixed enumeration of (repo, use, role) in the order the create handler
issues its `keyStorage.putKey` calls. -/
def keyEnum : List (TUFRepo × KeyUse × TUFRole) :=
  [(.image, .kpriv, .root), (.image, .kpriv, .targets),
   (.image, .kpriv, .snapshot), (.image, .kpriv, .timestamp),
   (.image, .kpub, .root), (.image, .kpub, .targets),
   (.image, .kpub, .snapshot), (.image, .kpub, .timestamp),
   (.director, .kpriv, .root), (.director, .kpriv, .targets),
   (.director, .kpriv, .snapshot), (.director, .kpriv, .timestamp),
   (.director, .kpub, .root), (.director, .kpub, .targets),
   (.director, .kpub, .snapshot), (.director, .kpub, .timestamp)]

/-- The 16 key identifiers written by the create handler, transcribed from its
`keyStorage.putKey` call sites in source order. -/
def createdKeyIds (nsid : String) : List String :=
  [nsid ++ "-image-root-private", nsid ++ "-image-targets-private",
   nsid ++ "-image-snapshot-private", nsid ++ "-image-timestamp-private",
   nsid ++ "-image-root-public", nsid ++ "-image-targets-public",
   nsid ++ "-image-snapshot-public", nsid ++ "-image-timestamp-public",
   nsid ++ "-director-root-private", nsid ++ "-director-targets-private",
   nsid ++ "-director-snapshot-private", nsid ++ "-director-timestamp-private",
   nsid ++ "-director-root-public", nsid ++ "-director-targets-public",
   nsid ++ "-director-snapshot-public", nsid ++ "-director-timestamp-public"]

/-- The 16 key identifiers removed by the delete handler, transcribed from its
`keyStorage.deleteKey` call sites in source order. -/
def deletedKeyIds (nsid : String) : List String :=
  [nsid ++ "-image-root-private", nsid ++ "-image-targets-private",
   nsid ++ "-image-snapshot-private", nsid ++ "-image-timestamp-private",
   nsid ++ "-image-root-public", nsid ++ "-image-targets-public",
   nsid ++ "-image-snapshot-public", nsid ++ "-image-timestamp-public",
   nsid ++ "-director-root-private", nsid ++ "-director-targets-private",
   nsid ++ "-director-snapshot-private", nsid ++ "-director-timestamp-private",
   nsid ++ "-director-root-public", nsid ++ "-director-targets-public",
   nsid ++ "-director-snapshot-public", nsid ++ "-director-timestamp-public"]

/-- Namespace row (columns id, created_at, updated_at); also the shape of the
JSON the create/list handlers return, which projects exactly these public
attributes. -/
structure NsRow where
  id : String
  created_at : Nat
  updated_at : Nat
deriving DecidableEq

/-- Metadata row as written by the main admin router. -/
structure MetaRow where
  namespace_id : String
  repo : TUFRepo
  role : TUFRole
  version : Nat
  value : String
  expires_at : Nat
deriving DecidableEq

/-- An asymmetric key pair as handed back by `generateKeyPair` (PEM strings). -/
structure KeyPair where
  privateKey : String
  publicKey : String
deriving DecidableEq

/-- State touched by the main admin router: namespace rows, metadata rows,
blob-store buckets, (bucket, key) blobs, and the key store. -/
structure StA where
  nss : List NsRow
  metadata : List MetaRow
  buckets : List String
  blobs : List ((String × String) × String)
  keys : List (String × String)
deriving DecidableEq

/-- The 16 key-pair halves in the order the create handler stores them
(image private x4, image public x4, director private x4, director public x4),
given the generated key pair for each (repo, role). -/
def tufKeyValues (kp : TUFRepo → TUFRole → KeyPair) : List String :=
  [(kp .image .root).privateKey, (kp .image .targets).privateKey,
   (kp .image .snapshot).privateKey, (kp .image .timestamp).privateKey,
   (kp .image .root).publicKey, (kp .image .targets).publicKey,
   (kp .image .snapshot).publicKey, (kp .image .timestamp).publicKey,
   (kp .director .root).privateKey, (kp .director .targets).privateKey,
   (kp .director .snapshot).privateKey, (kp .director .timestamp).privateKey,
   (kp .director .root).publicKey, (kp .director .targets).publicKey,
   (kp .director .snapshot).publicKey, (kp .director .timestamp).publicKey]

/-- POST `/namespaces` (src/src/modules/admin/index.ts).  Inputs that the
handler obtains from outside the stores are passed in: the store-generated row
id and timestamp, the generated key pair per (repo, role), the two
`generateRoot` documents (opaque payloads) and their expiry timestamps.
Within one relational transaction it creates the namespace row and one root
metadata row per repository kind at version 1, then creates the namespace
bucket and stores the 16 key records; it answers 200 with the row's public
attributes. -/
def createNamespace (s : StA) (freshId : String) (now : Nat)
    (kp : TUFRepo → TUFRole → KeyPair) (imageRepoRoot directorRepoRoot : String)
    (imageExp directorExp : Nat) : StA × NsRow :=
  let nsRow : NsRow := ⟨freshId, now, now⟩
  let m1 : MetaRow := ⟨freshId, .image, .root, 1, imageRepoRoot, imageExp⟩
  let m2 : MetaRow := ⟨freshId, .director, .root, 1, directorRepoRoot, directorExp⟩
  let keys1 := ((createdKeyIds freshId).zip (tufKeyValues kp)).foldl
    (fun ks p => putKeyVal ks p.1 p.2) s.keys
  (⟨s.nss ++ [nsRow], s.metadata ++ [m1, m2], s.buckets ++ [freshId], s.blobs, keys1⟩,
   ⟨freshId, now, now⟩)

/-- DELETE `/namespaces/:namespace` (src/src/modules/admin/index.ts): 400 if
the namespace row does not exist; otherwise deletes the row (the relational
store cascades to its metadata and object rows), deletes the namespace bucket,
and deletes the 16 key records by rebuilding their identifiers. -/
def deleteNamespace (s : StA) (nsid : String) : StA × HResult :=
  if s.nss.countP (fun r => r.id == nsid) = 0 then
    (s, .res 400 (some "could not delete namespace") none)
  else
    (⟨s.nss.filter (fun r => !(r.id == nsid)),
      s.metadata.filter (fun m => !(m.namespace_id == nsid)),
      s.buckets.filter (fun b => !(b == nsid)),
      s.blobs,
      (deletedKeyIds nsid).foldl deleteKeyVal s.keys⟩,
     .res 200 (some "namespace deleted") none)

/-! ### Provisioning credentials (src/src/modules/admin/index.ts) -/

/-- Identifier constant imported from `core/consts` (a file not under src/).
Its concrete value is an opaque placeholder here; the handler passes it to
`keyStorage.getKey` with no namespace argument, so only its independence from
any namespace id carries weight. -/
def RootCAPrivateKeyId : String := "root-ca-key-private"

/-- Identifier constant imported from `core/consts` (see `RootCAPrivateKeyId`). -/
def RootCAPublicKeyId : String := "root-ca-key-public"

/-- Bucket-name constant imported from `core/consts` (see `RootCAPrivateKeyId`). -/
def RootCABucket : String := "root-ca-bucket"

/-- Object-id constant imported from `core/consts` (see `RootCAPrivateKeyId`). -/
def RootCACertObjId : String := "root-ca-cert"

/-- An X.509 certificate as far as this development observes it: common name,
subject public key, the private key that signed it, and the PEM of the parent
certificate it chains to (`none` for a self-signed root). -/
structure Cert where
  commonName : String
  subjectPub : String
  issuerPriv : String
  parentPem : Option String
deriving DecidableEq

/-- Options object of `generateCertificate`: common name, the parent
certificate (by its loaded PEM) and the key pair that signs. -/
structure CertOpts where
  commonName : String
  certPem : String
  keyPair : KeyPair
deriving DecidableEq

/-- Modelled from the spec: `generateCertificate` of `core/crypto` is not
under src/.  Spec 4.3: with no options it builds a self-signed root
certificate from the given key pair; with options it issues a leaf
certificate for the given key pair's public key, with the given (UUID) common
name, signed using the options' key-pair private key and chained to the
options' parent certificate. -/
def generateCertificate (kp : KeyPair) (opts : Option CertOpts) : Cert :=
  match opts with
  | none => ⟨"", kp.publicKey, kp.privateKey, none⟩
  | some o => ⟨o.commonName, kp.publicKey, o.keyPair.privateKey, some o.certPem⟩

/-- Contents of the PKCS#12 container the provisioning handler assembles:
`forge.pkcs12.toPkcs12Asn1(provisioningKeyPair.privateKey,
[provisioningCert, rootCaCert], ...)`.  The root CA certificate is carried as
the PEM string that was loaded from the blob store. -/
structure P12 where
  leafKey : String
  leafCert : Cert
  caCertPem : String
deriving DecidableEq

/-- Contents of the credentials.zip archive: the gateway URL file and the
PKCS#12 container. -/
structure ArchiveModel where
  urlFile : String
  p12 : P12
deriving DecidableEq

/-- GET `/namespaces/:namespace/provisioning-credentials`
(src/src/modules/admin/index.ts).  400 if the namespace row count is zero
(before any key or blob store access); otherwise loads the root CA private
and public keys from the key store and the root CA certificate from the blob
store — all under the fixed `core/consts` identifiers — issues a leaf
certificate for a fresh key pair signed by that CA, and streams the archive
with 200.  The fresh key pair and the UUID common name are injected, and a
failed load surfaces as an unhandled rejection. -/
def provisioningCredentials (s : StA) (nsid : String) (provKp : KeyPair)
    (uuid hostname : String) : (Nat × Option ArchiveModel) × List StoreOp :=
  if s.nss.countP (fun r => r.id == nsid) = 0 then
    ((400, none), [.nsCount nsid])
  else
    let trace : List StoreOp :=
      [.nsCount nsid, .keyGet RootCAPrivateKeyId, .keyGet RootCAPublicKeyId,
       .blobGet2 RootCABucket RootCACertObjId]
    match getKeyVal s.keys RootCAPrivateKeyId, getKeyVal s.keys RootCAPublicKeyId,
          getBlob2 s.blobs RootCABucket RootCACertObjId with
    | some kpriv, some kpub, some certPem =>
      let provisioningCert :=
        generateCertificate provKp (some ⟨uuid, certPem, ⟨kpriv, kpub⟩⟩)
      ((200, some ⟨hostname ++ "/api/v0/director/" ++ nsid,
          ⟨provKp.privateKey, provisioningCert, certPem⟩⟩), trace)
    | _, _, _ => ((0, none), trace)

/-! ### Single-metadata admin variant (part_002) -/

/-- TUF role enum of `core/consts` as the part_002 variant uses it. -/
inductive ETUFRole where
  | Root
  | Targets
  | Snapshot
  | Timestamp
deriving DecidableEq

/-- Metadata row as written by the part_002 variant: no repo-kind column, a
`type` column instead of `role`, and no expiry. -/
structure MetaRowV0 where
  namespace_id : String
  type : ETUFRole
  version : Nat
  value : String
deriving DecidableEq

/-- State touched by the part_002 admin variant. -/
structure StV0 where
  nss : List NsRow
  metadata : List MetaRowV0
  keys : List (String × String)
deriving DecidableEq

/-- POST `/namespaces` (part_002 variant): creates the namespace row and a
single image-repo root metadata row at version 1 (the `metadata.create` is
issued on the global client, not the transaction client), then stores the 8
private keys under `{id}-{repo}-{role}` identifiers; answers 200 with the
public attributes. -/
def createNamespaceV0 (s : StV0) (freshId : String) (now : Nat)
    (kp : TUFRepo → TUFRole → KeyPair) (imageRoot : String) : StV0 × NsRow :=
  let keyIdsV0 : List String :=
    [freshId ++ "-image-root", freshId ++ "-image-targets",
     freshId ++ "-image-snapshot", freshId ++ "-image-timestamp",
     freshId ++ "-director-root", freshId ++ "-director-targets",
     freshId ++ "-director-snapshot", freshId ++ "-director-timestamp"]
  let keyVals : List String :=
    [(kp .image .root).privateKey, (kp .image .targets).privateKey,
     (kp .image .snapshot).privateKey, (kp .image .timestamp).privateKey,
     (kp .director .root).privateKey, (kp .director .targets).privateKey,
     (kp .director .snapshot).privateKey, (kp .director .timestamp).privateKey]
  (⟨s.nss ++ [⟨freshId, now, now⟩],
    s.metadata ++ [⟨freshId, .Root, 1, imageRoot⟩],
    (keyIdsV0.zip keyVals).foldl (fun ks p => putKeyVal ks p.1 p.2) s.keys⟩,
   ⟨freshId, now, now⟩)

/-- Bucket-id reconstruction used by the part_002 namespace deletion when it
removes treehub blobs — the only summary-aware key derivation in the sources:
`{namespace_id}/{object_id}` when the object id is the literal "summary",
otherwise `{namespace_id}/{object_id[0:2]}/{object_id[2:]}`. -/
def deleteObjBucketId (namespace_id object_id : String) : String :=
  if object_id = "summary" then namespace_id ++ "/" ++ object_id
  else namespace_id ++ "/" ++ (object_id.take 2) ++ "/" ++ (object_id.drop 2)

/-! ### Tenant slices and helper lemmas -/

/-- The tenant segment of a one-string blob key: everything before the first
slash. -/
def keyOwner (k : String) : String :=
  String.mk (k.data.takeWhile (fun c => c != '/'))

/-- A tenant identifier free of path separators, as express path parameters
always are (a `/` would have split the route segment). -/
def noSlash (t : String) : Prop := ∀ c ∈ t.data, c ≠ '/'

instance (t : String) : Decidable (noSlash t) := by
  unfold noSlash; infer_instance

/-- The tenant a store operation is keyed by: the namespace/team column for
relational calls, the bucket for two-part blob keys, the leading segment for
one-string blob keys; key-store calls carry none. -/
def opNs : StoreOp → Option String
  | .teamCount t => some t
  | .nsCount n => some n
  | .objFind ns _ => some ns
  | .objUpsert ns _ => some ns
  | .objUpdate ns _ => some ns
  | .blobPut k => some (keyOwner k)
  | .blobGet k => some (keyOwner k)
  | .blobPut2 b _ => some b
  | .blobGet2 b _ => some b
  | .keyGet _ => none
  | .keyPut _ => none

/-- Removal of one tenant's whole slice from the namespace-scoped state. -/
def scrub1 (t : String) (s : St1) : St1 :=
  ⟨s.nss, s.objects.filter (fun r => !(r.ns == t)),
   s.blobs.filter (fun b => !(keyOwner b.1 == t))⟩

/-- Removal of one tenant's whole slice from the team-scoped state. -/
def scrub0 (t : String) (s : St0) : St0 :=
  ⟨s.teams.filter (fun x => !(x == t)), s.objects.filter (fun r => !(r.team_id == t)),
   s.blobs.filter (fun b => !(b.1.1 == t))⟩

theorem takeWhile_until_slash (l r : List Char) (h : ∀ c ∈ l, c ≠ '/') :
    (l ++ '/' :: r).takeWhile (fun c => c != '/') = l := by
  induction l with
  | nil => simp [List.takeWhile_cons]
  | cons c t ih =>
    have hc : c ≠ '/' := h c (List.mem_cons_self c t)
    have ht := ih (fun x hx => h x (List.mem_cons_of_mem c hx))
    simp [List.takeWhile_cons, hc, ht]

theorem keyOwner_append (t r : String) (h : noSlash t) :
    keyOwner (t ++ "/" ++ r) = t := by
  have hd : (t ++ "/" ++ r).data = t.data ++ '/' :: r.data := by
    rw [String.data_append, String.data_append]
    simp
  unfold keyOwner
  rw [hd, takeWhile_until_slash t.data r.data h]

theorem keyOwner_bucketId1 (ns pfx sfx : String) (h : noSlash ns) :
    keyOwner (bucketId1 ns pfx sfx) = ns := by
  have : bucketId1 ns pfx sfx = ns ++ "/" ++ (pfx ++ "/" ++ sfx) := by
    simp [bucketId1, String.append_assoc]
  rw [this]
  exact keyOwner_append ns _ h

theorem find?_filter_of_imp {α : Type} (l : List α) (p q : α → Bool)
    (h : ∀ a, p a = true → q a = true) : (l.filter q).find? p = l.find? p := by
  induction l with
  | nil => rfl
  | cons a t ih =>
    by_cases hq : q a = true
    · rw [List.filter_cons_of_pos hq, List.find?_cons, List.find?_cons]
      cases hp : p a <;> simp [hp, ih]
    · have hp : p a = false := by
        cases hpa : p a
        · rfl
        · exact absurd (h a hpa) hq
      rw [List.filter_cons_of_neg (by simp [hq]), List.find?_cons, hp]
      simpa using ih
theorem headObject_eq (s : St0) (teamID pfx sfx : String) :
    headObject s teamID pfx sfx =
      (s, (if (findObject0 s.objects teamID (pfx ++ sfx)).isSome
            then HResult.res 200 none none else HResult.res 404 none none),
       [.objFind teamID (pfx ++ sfx)]) := by
  unfold headObject
  cases h : findObject0 s.objects teamID (pfx ++ sfx) <;> simp [h]

/-! ### Claim theorems -/

/-- C3: the existence probe is answered exclusively from the relational
store: it leaves the state untouched, returns 200 exactly when an Object row
for (team, prefix ++ suffix) exists and 404 otherwise, issues exactly the one
relational `findUnique` and no blob-store call, its answer ignores arbitrary
replacement of the team rows and of the whole blob store, and rewriting every
row's status (e.g. UPLOADING for UPLOADED) leaves the answer unchanged. -/
theorem head_answers_from_relational_store (s : St0) (teamID pfx sfx : String)
    (ts : List String) (bl : List ((String × String) × String)) (st : ObjectStatus) :
    (headObject s teamID pfx sfx).1 = s
    ∧ ((headObject s teamID pfx sfx).2.1 = .res 200 none none
        ↔ (findObject0 s.objects teamID (pfx ++ sfx)).isSome = true)
    ∧ ((headObject s teamID pfx sfx).2.1 = .res 200 none none
        ∨ (headObject s teamID pfx sfx).2.1 = .res 404 none none)
    ∧ (headObject s teamID pfx sfx).2.2 = [.objFind teamID (pfx ++ sfx)]
    ∧ (headObject ⟨ts, s.objects, bl⟩ teamID pfx sfx).2
        = (headObject s teamID pfx sfx).2
    ∧ (headObject ⟨s.teams, s.objects.map (fun r => ⟨r.team_id, r.object_id, r.size, st⟩),
          s.blobs⟩ teamID pfx sfx).2
        = (headObject s teamID pfx sfx).2 := by
  have hmap : (findObject0 (s.objects.map (fun r => ⟨r.team_id, r.object_id, r.size, st⟩))
      teamID (pfx ++ sfx)).isSome = (findObject0 s.objects teamID (pfx ++ sfx)).isSome := by
    unfold findObject0
    rw [List.find?_map]
    have hp : ((fun r : ObjRow0 => r.team_id == teamID && r.object_id == pfx ++ sfx) ∘
        (fun r : ObjRow0 => ⟨r.team_id, r.object_id, r.size, st⟩)) =
        (fun r : ObjRow0 => r.team_id == teamID && r.object_id == pfx ++ sfx) := rfl
    rw [hp]
    simp
  refine ⟨?_, ?_, ?_, ?_, ?_, ?_⟩
  · rw [headObject_eq]
  · rw [headObject_eq]
    cases h : (findObject0 s.objects teamID (pfx ++ sfx)).isSome <;> simp [h]
  · rw [headObject_eq]
    cases h : (findObject0 s.objects teamID (pfx ++ sfx)).isSome <;> simp [h]
  · rw [headObject_eq]
  · rw [headObject_eq, headObject_eq]
  · rw [headObject_eq, headObject_eq]
    simp only [hmap]

/-- C8: the key-store identifiers deleted by namespace deletion are exactly
the identifiers written by namespace creation, in the same order, and both
are reconstructed purely from the namespace id and the fixed enumeration of
(repo, use, role) via the `{id}-{repo}-{role}-{use}` template — no stored
state is consulted. -/
theorem deleted_key_ids_eq_created (nsid : String) :
    deletedKeyIds nsid = createdKeyIds nsid
    ∧ createdKeyIds nsid = keyEnum.map (fun e => keyId nsid e.1 e.2.2 e.2.1) := by
  exact ⟨rfl, rfl⟩

/-- C5: an upload whose declared content length parses to NaN (absent header
or no digits) or to zero is rejected with 400 by both upload variants, with
the input state returned untouched and an empty store trace — no relational
query, no row creation or mutation, no blob write. -/
theorem upload_invalid_size_rejected (s1 : St1) (s0 : St0)
    (ns teamID pfx sfx c pfx0 sfx0 c0 : String) (clen : Option String) (ok ok0 : Bool)
    (h : parseIntJS clen = none ∨ parseIntJS clen = some 0) :
    uploadPut s1 ns pfx sfx c clen ok = (s1, .res 400 none none, [])
    ∧ uploadPost s0 teamID pfx0 sfx0 c0 clen ok0 = (s0, .res 400 none none, []) := by
  rcases h with h | h <;> exact ⟨by simp [uploadPut, h], by simp [uploadPost, h]⟩

/-- Witness for C5 at a concrete non-numeric header. -/
theorem upload_invalid_size_rejected_witness :
    (parseIntJS (some "abc") = none ∨ parseIntJS (some "abc") = some 0)
    ∧ uploadPut ⟨[], [], []⟩ "n" "ab" "cd" "x" (some "abc") true
        = (⟨[], [], []⟩, .res 400 none none, [])
    ∧ uploadPost ⟨["t"], [], []⟩ "t" "ab" "cd" "x" (some "abc") true
        = (⟨["t"], [], []⟩, .res 400 none none, []) := by
  refine ⟨Or.inl (by decide), ?_⟩
  have h := upload_invalid_size_rejected ⟨[], [], []⟩ ⟨["t"], [], []⟩
    "n" "t" "ab" "cd" "x" "ab" "cd" "x" (some "abc") true true (Or.inl (by decide))
  exact h

/-- C6 (amended): in the team-scoped variant an upload with a valid declared
size addressed to a team with no relational row fails with 400 after issuing
only the team-count query: the state is returned untouched and nothing is
written to either store. -/
theorem upload_unknown_team_rejected (s : St0) (teamID pfx sfx c : String)
    (clen : Option String) (n : Int) (ok : Bool)
    (hp : parseIntJS clen = some n) (hn : ¬ n = 0)
    (ht : s.teams.countP (fun t => t == teamID) = 0) :
    uploadPost s teamID pfx sfx c clen ok
      = (s, .res 400 (some "could not upload ostree object") none, [.teamCount teamID]) := by
  simp [uploadPost, hp, hn, ht]

/-- Witness for C6's amended theorem at a concrete state with no team row. -/
theorem upload_unknown_team_rejected_witness :
    parseIntJS (some "7") = some 7
    ∧ ((⟨[], [], []⟩ : St0).teams.countP (fun t => t == "t9") = 0)
    ∧ uploadPost ⟨[], [], []⟩ "t9" "ab" "cd" "x" (some "7") true
        = (⟨[], [], []⟩, .res 400 (some "could not upload ostree object") none,
           [.teamCount "t9"]) := by
  exact ⟨by decide, by decide,
    upload_unknown_team_rejected ⟨[], [], []⟩ "t9" "ab" "cd" "x" (some "7") 7 true
      (by decide) (by decide) (by decide)⟩

/-- C6 counterexample: the namespace-scoped PUT variant performs no
namespace-existence check at all.  Starting from a state whose Namespace
table is empty, an upload with a valid declared size succeeds with 200 and
writes both the Object row and the blob, refuting the claim that every upload
to a namespace with no relational row fails with 400 and writes nothing. -/
theorem upload_put_no_ns_check_cex :
    uploadPut ⟨[], [], []⟩ "ns1" "ab" "cd" "payload" (some "7") true
      = (⟨[], [⟨"ns1", "abcd", 7, .uploaded⟩], [("ns1/ab/cd", "payload")]⟩,
         .res 200 none none,
         [.objUpsert "ns1" "abcd", .blobPut "ns1/ab/cd", .objUpdate "ns1" "abcd"]) := by
  decide

/-- C1 (amended): when the blob write injected into the transaction fails
after the relational upsert, the whole `prisma.$transaction` rolls back: both
upload variants end in an unhandled rejection with the store state exactly as
before the request (the upsert is not committed, so the row does not stay in
UPLOADING — it reverts to its pre-upload state), having attempted the upsert
and the blob write. -/
theorem upload_blobfail_rolls_back (s1 : St1) (s0 : St0)
    (ns teamID pfx sfx c pfx0 sfx0 c0 : String) (clen clen0 : Option String) (n n0 : Int)
    (hp : parseIntJS clen = some n) (hn : ¬ n = 0)
    (hp0 : parseIntJS clen0 = some n0) (hn0 : ¬ n0 = 0)
    (ht : ¬ s0.teams.countP (fun t => t == teamID) = 0) :
    uploadPut s1 ns pfx sfx c clen false
      = (s1, .unhandled, [.objUpsert ns (pfx ++ sfx), .blobPut (bucketId1 ns pfx sfx)])
    ∧ uploadPost s0 teamID pfx0 sfx0 c0 clen0 false
      = (s0, .unhandled,
         [.teamCount teamID, .objUpsert teamID (pfx0 ++ sfx0),
          .blobPut2 teamID ("treehub/" ++ pfx0 ++ "/" ++ sfx0)]) := by
  exact ⟨by simp [uploadPut, hp, hn], by simp [uploadPost, hp0, hn0, ht]⟩

/-- Witness for C1's amended theorem at concrete states. -/
theorem upload_blobfail_rolls_back_witness :
    parseIntJS (some "7") = some 7
    ∧ ¬ ((⟨["t"], [], []⟩ : St0).teams.countP (fun t => t == "t") = 0)
    ∧ uploadPut ⟨["ns1"], [⟨"ns1", "zz", 1, .uploaded⟩], []⟩ "ns1" "ab" "cd" "x" (some "7") false
        = (⟨["ns1"], [⟨"ns1", "zz", 1, .uploaded⟩], []⟩, .unhandled,
           [.objUpsert "ns1" "abcd", .blobPut "ns1/ab/cd"])
    ∧ uploadPost ⟨["t"], [], []⟩ "t" "ab" "cd" "x" (some "7") false
        = (⟨["t"], [], []⟩, .unhandled,
           [.teamCount "t", .objUpsert "t" "abcd", .blobPut2 "t" "treehub/ab/cd"]) := by
  have h := upload_blobfail_rolls_back
    ⟨["ns1"], [⟨"ns1", "zz", 1, .uploaded⟩], []⟩ ⟨["t"], [], []⟩
    "ns1" "t" "ab" "cd" "x" "ab" "cd" "x" (some "7") (some "7") 7 7
    (by decide) (by decide) (by decide) (by decide) (by decide)
  exact ⟨by decide, by decide, h.1, h.2⟩

/-- C1 counterexample: with the blob write made to fail after the relational
upsert (fault injection, `blobOk = false`), the claim asserts the Object row
for ("ns1", "abcd") remains present with status UPLOADING.  In fact the
transaction rollback leaves no row at all for the pair: the relational lookup
after the failed upload returns none. -/
theorem upload_blobfail_row_absent_cex :
    findObject1 (uploadPut ⟨[], [], []⟩ "ns1" "ab" "cd" "payload" (some "7") false).1.objects
        "ns1" "abcd" = none
    ∧ (uploadPut ⟨[], [], []⟩ "ns1" "ab" "cd" "payload" (some "7") false).2.1 = .unhandled := by
  decide

/-- C4: download case analysis for both variants.  With no Object row for the
pair the answer is 404, the trace holds only the relational lookup (the blob
store is not consulted) and the state is untouched; with a row present (any
status) and an empty blob fetch the answer is 500 with the state untouched
(no repair); with a successful fetch the answer is 200 carrying the raw bytes
under content type application/octet-stream. -/
theorem download_case_analysis (sA sB sC : St1) (sD sE sF : St0)
    (ns t pfx sfx : String) (rB rC : ObjRow1) (rE rF : ObjRow0) (cC cF : String)
    (hA : findObject1 sA.objects ns (pfx ++ sfx) = none)
    (hB1 : findObject1 sB.objects ns (pfx ++ sfx) = some rB)
    (hB2 : getBlob sB.blobs (bucketId1 ns pfx sfx) = none)
    (hC1 : findObject1 sC.objects ns (pfx ++ sfx) = some rC)
    (hC2 : getBlob sC.blobs (bucketId1 ns pfx sfx) = some cC)
    (hD : findObject0 sD.objects t (pfx ++ sfx) = none)
    (hE1 : findObject0 sE.objects t (pfx ++ sfx) = some rE)
    (hE2 : getBlob2 sE.blobs t ("treehub/" ++ pfx ++ "/" ++ sfx) = none)
    (hF1 : findObject0 sF.objects t (pfx ++ sfx) = some rF)
    (hF2 : getBlob2 sF.blobs t ("treehub/" ++ pfx ++ "/" ++ sfx) = some cF) :
    downloadGet sA ns pfx sfx = (sA, .res 404 none none, [.objFind ns (pfx ++ sfx)])
    ∧ downloadGet sB ns pfx sfx
      = (sB, .res 500 none none, [.objFind ns (pfx ++ sfx), .blobGet (bucketId1 ns pfx sfx)])
    ∧ downloadGet sC ns pfx sfx
      = (sC, .res 200 (some cC) (some "application/octet-stream"),
         [.objFind ns (pfx ++ sfx), .blobGet (bucketId1 ns pfx sfx)])
    ∧ downloadGet0 sD t pfx sfx = (sD, .res 404 none none, [.objFind t (pfx ++ sfx)])
    ∧ downloadGet0 sE t pfx sfx
      = (sE, .res 500 none none,
         [.objFind t (pfx ++ sfx), .blobGet2 t ("treehub/" ++ pfx ++ "/" ++ sfx)])
    ∧ downloadGet0 sF t pfx sfx
      = (sF, .res 200 (some cF) (some "application/octet-stream"),
         [.objFind t (pfx ++ sfx), .blobGet2 t ("treehub/" ++ pfx ++ "/" ++ sfx)]) := by
  refine ⟨?_, ?_, ?_, ?_, ?_, ?_⟩
  · simp [downloadGet, hA]
  · simp [downloadGet, hB1, hB2]
  · simp [downloadGet, hC1, hC2]
  · simp [downloadGet0, hD]
  · simp [downloadGet0, hE1, hE2]
  · simp [downloadGet0, hF1, hF2]

/-- Witness for C4: the three namespace-scoped and three team-scoped
scenarios at concrete states. -/
theorem download_case_analysis_witness :
    downloadGet ⟨[], [], []⟩ "n" "ab" "cd" = (⟨[], [], []⟩, .res 404 none none,
      [.objFind "n" "abcd"])
    ∧ downloadGet ⟨[], [⟨"n", "abcd", 7, .uploading⟩], []⟩ "n" "ab" "cd"
      = (⟨[], [⟨"n", "abcd", 7, .uploading⟩], []⟩, .res 500 none none,
         [.objFind "n" "abcd", .blobGet "n/ab/cd"])
    ∧ downloadGet ⟨[], [⟨"n", "abcd", 7, .uploaded⟩], [("n/ab/cd", "bytes")]⟩ "n" "ab" "cd"
      = (⟨[], [⟨"n", "abcd", 7, .uploaded⟩], [("n/ab/cd", "bytes")]⟩,
         .res 200 (some "bytes") (some "application/octet-stream"),
         [.objFind "n" "abcd", .blobGet "n/ab/cd"])
    ∧ downloadGet0 ⟨["t"], [], []⟩ "t" "ab" "cd" = (⟨["t"], [], []⟩, .res 404 none none,
      [.objFind "t" "abcd"])
    ∧ downloadGet0 ⟨["t"], [⟨"t", "abcd", 7, .uploading⟩], []⟩ "t" "ab" "cd"
      = (⟨["t"], [⟨"t", "abcd", 7, .uploading⟩], []⟩, .res 500 none none,
         [.objFind "t" "abcd", .blobGet2 "t" "treehub/ab/cd"])
    ∧ downloadGet0 ⟨["t"], [⟨"t", "abcd", 7, .uploaded⟩], [(("t", "treehub/ab/cd"), "bytes")]⟩
        "t" "ab" "cd"
      = (⟨["t"], [⟨"t", "abcd", 7, .uploaded⟩], [(("t", "treehub/ab/cd"), "bytes")]⟩,
         .res 200 (some "bytes") (some "application/octet-stream"),
         [.objFind "t" "abcd", .blobGet2 "t" "treehub/ab/cd"]) := by
  exact download_case_analysis ⟨[], [], []⟩ ⟨[], [⟨"n", "abcd", 7, .uploading⟩], []⟩
    ⟨[], [⟨"n", "abcd", 7, .uploaded⟩], [("n/ab/cd", "bytes")]⟩
    ⟨["t"], [], []⟩ ⟨["t"], [⟨"t", "abcd", 7, .uploading⟩], []⟩
    ⟨["t"], [⟨"t", "abcd", 7, .uploaded⟩], [(("t", "treehub/ab/cd"), "bytes")]⟩
    "n" "t" "ab" "cd" ⟨"n", "abcd", 7, .uploading⟩ ⟨"n", "abcd", 7, .uploaded⟩
    ⟨"t", "abcd", 7, .uploading⟩ ⟨"t", "abcd", 7, .uploaded⟩ "bytes" "bytes"
    (by decide) (by decide) (by decide) (by decide) (by decide)
    (by decide) (by decide) (by decide) (by decide) (by decide)

/-- C9 (amended): the namespace-scoped upload and download derive the blob
key as the sharded `{namespace}/{prefix}/{suffix}` for every identifier, with
no special case; the unsharded `{namespace_id}/summary` form appears only in
the part_002 namespace-deletion reconstruction of keys from stored object
ids. -/
theorem blob_key_layout (s sB : St1) (ns pfx sfx c : String)
    (clen : Option String) (n : Int) (r : ObjRow1)
    (hp : parseIntJS clen = some n) (hn : ¬ n = 0)
    (hB : findObject1 sB.objects ns (pfx ++ sfx) = some r) :
    (uploadPut s ns pfx sfx c clen true).2.2
      = [.objUpsert ns (pfx ++ sfx), .blobPut (ns ++ "/" ++ pfx ++ "/" ++ sfx),
         .objUpdate ns (pfx ++ sfx)]
    ∧ (downloadGet sB ns pfx sfx).2.2
      = [.objFind ns (pfx ++ sfx), .blobGet (ns ++ "/" ++ pfx ++ "/" ++ sfx)]
    ∧ deleteObjBucketId ns "summary" = ns ++ "/" ++ "summary"
    ∧ deleteObjBucketId ns (pfx ++ sfx)
      = (if pfx ++ sfx = "summary" then ns ++ "/" ++ (pfx ++ sfx)
         else ns ++ "/" ++ ((pfx ++ sfx).take 2) ++ "/" ++ ((pfx ++ sfx).drop 2)) := by
  refine ⟨by simp [uploadPut, hp, hn, bucketId1], ?_, by simp [deleteObjBucketId], rfl⟩
  cases hg : getBlob sB.blobs (ns ++ "/" ++ pfx ++ "/" ++ sfx) <;>
    simp [downloadGet, hB, hg, bucketId1]

/-- Witness for C9's amended theorem at a concrete state. -/
theorem blob_key_layout_witness :
    parseIntJS (some "7") = some 7
    ∧ (uploadPut ⟨[], [], []⟩ "n" "ab" "cd" "x" (some "7") true).2.2
        = [.objUpsert "n" "abcd", .blobPut "n/ab/cd", .objUpdate "n" "abcd"]
    ∧ (downloadGet ⟨[], [⟨"n", "abcd", 7, .uploaded⟩], []⟩ "n" "ab" "cd").2.2
        = [.objFind "n" "abcd", .blobGet "n/ab/cd"]
    ∧ deleteObjBucketId "n" "summary" = "n/summary" := by
  have h := blob_key_layout ⟨[], [], []⟩ ⟨[], [⟨"n", "abcd", 7, .uploaded⟩], []⟩
    "n" "ab" "cd" "x" (some "7") 7 ⟨"n", "abcd", 7, .uploaded⟩
    (by decide) (by decide) (by decide)
  exact ⟨by decide, by simpa using h.1, by simpa using h.2.1, by decide⟩

/-- C9 counterexample: an upload whose object identifier is the literal
"summary" (prefix "su", suffix "mmary") still writes the sharded key
`n/su/mmary`, not the unsharded `n/summary` the claim requires for that
identifier. -/
theorem upload_summary_sharded_cex :
    ("su" ++ "mmary" : String) = "summary"
    ∧ (uploadPut ⟨[], [], []⟩ "n" "su" "mmary" "c" (some "1") true).2.2
        = [.objUpsert "n" "summary", .blobPut "n/su/mmary", .objUpdate "n" "summary"]
    ∧ ("n/su/mmary" : String) ≠ "n/summary" := by
  decide

/-- C7 (amended): in the two-metadata admin variants, a successful creation
with a fresh store-generated id adds exactly one Namespace row for that id
and exactly two Metadata rows — image/root/version 1 and
director/root/version 1 — inside the one relational transaction, and the
response is exactly the public attributes (id, created_at, updated_at). -/
theorem create_namespace_rows (s : StA) (freshId : String) (now : Nat)
    (kp : TUFRepo → TUFRole → KeyPair) (ir dr : String) (ie de : Nat)
    (hns : s.nss.countP (fun r => r.id == freshId) = 0)
    (hmd : s.metadata.countP (fun m => m.namespace_id == freshId) = 0) :
    ((createNamespace s freshId now kp ir dr ie de).1.nss.countP
        (fun r => r.id == freshId) = 1)
    ∧ ((createNamespace s freshId now kp ir dr ie de).1.metadata.filter
        (fun m => m.namespace_id == freshId)
        = [⟨freshId, .image, .root, 1, ir, ie⟩, ⟨freshId, .director, .root, 1, dr, de⟩])
    ∧ (createNamespace s freshId now kp ir dr ie de).2 = ⟨freshId, now, now⟩ := by
  have hf : s.metadata.filter (fun m => m.namespace_id == freshId) = [] := by
    rw [List.filter_eq_nil_iff]
    intro a ha
    exact (List.countP_eq_zero.mp hmd) a ha
  refine ⟨?_, ?_, rfl⟩
  · simp [createNamespace, List.countP_append, hns]
  · simp [createNamespace, List.filter_append, hf]

/-- Witness for C7's amended theorem: creation into the empty store. -/
theorem create_namespace_rows_witness :
    ((createNamespace ⟨[], [], [], [], []⟩ "n1" 5 (fun _ _ => ⟨"p", "q"⟩) "imgroot" "dirroot"
        9 9).1.nss.countP (fun r => r.id == "n1") = 1)
    ∧ ((createNamespace ⟨[], [], [], [], []⟩ "n1" 5 (fun _ _ => ⟨"p", "q"⟩) "imgroot" "dirroot"
        9 9).1.metadata.filter (fun m => m.namespace_id == "n1")
        = [⟨"n1", .image, .root, 1, "imgroot", 9⟩, ⟨"n1", .director, .root, 1, "dirroot", 9⟩])
    ∧ (createNamespace ⟨[], [], [], [], []⟩ "n1" 5 (fun _ _ => ⟨"p", "q"⟩) "imgroot" "dirroot"
        9 9).2 = ⟨"n1", 5, 5⟩ := by
  exact create_namespace_rows ⟨[], [], [], [], []⟩ "n1" 5 (fun _ _ => ⟨"p", "q"⟩)
    "imgroot" "dirroot" 9 9 (by decide) (by decide)

/-- C7 counterexample: the part_002 creation variant persists exactly one
Metadata row for the new namespace (an image-repo root document with no repo
kind column), not the two rows — one per repository kind — the claim
requires of every successful namespace creation. -/
theorem create_single_metadata_cex :
    ((createNamespaceV0 ⟨[], [], []⟩ "n1" 0 (fun _ _ => ⟨"p", "q"⟩) "rootdoc").1.metadata.countP
        (fun m => m.namespace_id == "n1") = 1)
    ∧ ¬ ((createNamespaceV0 ⟨[], [], []⟩ "n1" 0 (fun _ _ => ⟨"p", "q"⟩) "rootdoc").1.metadata.countP
        (fun m => m.namespace_id == "n1") = 2) := by
  decide

/-- C2 (amended): a provisioning-credentials request for an unknown
namespace id answers 400 having issued only the namespace-count query — no
key-store or blob-store access; for an existing namespace it answers 200
with an archive whose PKCS#12 holds the fresh provisioning private key and a
leaf certificate signed with the root CA private key and chained to the root
CA certificate — but both are loaded under the fixed `core/consts`
identifiers, identical for every namespace, not under identifiers derived
from the namespace id. -/
theorem provisioning_uses_global_root_ca (s sz : StA) (nsid nsidz : String)
    (provKp : KeyPair) (uuid host : String) (kpriv kpub certPem : String)
    (hcnt : ¬ s.nss.countP (fun r => r.id == nsid) = 0)
    (hk1 : getKeyVal s.keys RootCAPrivateKeyId = some kpriv)
    (hk2 : getKeyVal s.keys RootCAPublicKeyId = some kpub)
    (hb : getBlob2 s.blobs RootCABucket RootCACertObjId = some certPem)
    (hz : sz.nss.countP (fun r => r.id == nsidz) = 0) :
    provisioningCredentials s nsid provKp uuid host
      = ((200, some ⟨host ++ "/api/v0/director/" ++ nsid,
           ⟨provKp.privateKey, ⟨uuid, provKp.publicKey, kpriv, some certPem⟩, certPem⟩⟩),
         [.nsCount nsid, .keyGet RootCAPrivateKeyId, .keyGet RootCAPublicKeyId,
          .blobGet2 RootCABucket RootCACertObjId])
    ∧ provisioningCredentials sz nsidz provKp uuid host
      = ((400, none), [.nsCount nsidz]) := by
  exact ⟨by simp [provisioningCredentials, hcnt, hk1, hk2, hb, generateCertificate],
    by simp [provisioningCredentials, hz]⟩

/-- Witness for C2's amended theorem at a concrete store. -/
theorem provisioning_uses_global_root_ca_witness :
    ¬ ((⟨[⟨"a", 0, 0⟩], [], [], [((RootCABucket, RootCACertObjId), "CERT")],
        [(RootCAPrivateKeyId, "PRIV"), (RootCAPublicKeyId, "PUB")]⟩ : StA).nss.countP
        (fun r => r.id == "a") = 0)
    ∧ provisioningCredentials
        ⟨[⟨"a", 0, 0⟩], [], [], [((RootCABucket, RootCACertObjId), "CERT")],
         [(RootCAPrivateKeyId, "PRIV"), (RootCAPublicKeyId, "PUB")]⟩
        "a" ⟨"PK", "PU"⟩ "u" "h"
      = ((200, some ⟨"h/api/v0/director/a", ⟨"PK", ⟨"u", "PU", "PRIV", some "CERT"⟩, "CERT"⟩⟩),
         [.nsCount "a", .keyGet RootCAPrivateKeyId, .keyGet RootCAPublicKeyId,
          .blobGet2 RootCABucket RootCACertObjId])
    ∧ provisioningCredentials ⟨[], [], [], [], []⟩ "z" ⟨"PK", "PU"⟩ "u" "h"
      = ((400, none), [.nsCount "z"]) := by
  have h := provisioning_uses_global_root_ca
    ⟨[⟨"a", 0, 0⟩], [], [], [((RootCABucket, RootCACertObjId), "CERT")],
     [(RootCAPrivateKeyId, "PRIV"), (RootCAPublicKeyId, "PUB")]⟩
    ⟨[], [], [], [], []⟩ "a" "z" ⟨"PK", "PU"⟩ "u" "h" "PRIV" "PUB" "CERT"
    (by decide) (by decide) (by decide) (by decide) (by decide)
  refine ⟨by decide, ?_, h.2⟩
  rw [h.1]
  rfl

/-- C2 counterexample: in a key store holding both the fixed global root CA
records and per-namespace `{id}-rootca-private` records (as the part_001
admin-variant creation writes them), provisioning requests for the two
distinct namespaces "a" and "b" issue bit-identical store accesses and both
receive a leaf certificate signed with the global "GLOBAL-PRIV" key — not
with the namespace-local "A-PRIV" — refuting the claim that the signing key
and certificate are loaded under identifiers derived from the requested
namespace's id.  (Only the leading relational namespace-count query carries
the namespace id; every key-store and blob-store access after it is
bit-identical across namespaces.) -/
theorem provisioning_ids_not_namespace_derived_cex :
    ((provisioningCredentials
        ⟨[⟨"a", 0, 0⟩, ⟨"b", 0, 0⟩], [], [],
         [((RootCABucket, RootCACertObjId), "GLOBAL-CERT")],
         [(RootCAPrivateKeyId, "GLOBAL-PRIV"), (RootCAPublicKeyId, "GLOBAL-PUB"),
          ("a-rootca-private", "A-PRIV"), ("b-rootca-private", "B-PRIV")]⟩
        "a" ⟨"PK", "PU"⟩ "u" "h").2.drop 1)
      = ((provisioningCredentials
        ⟨[⟨"a", 0, 0⟩, ⟨"b", 0, 0⟩], [], [],
         [((RootCABucket, RootCACertObjId), "GLOBAL-CERT")],
         [(RootCAPrivateKeyId, "GLOBAL-PRIV"), (RootCAPublicKeyId, "GLOBAL-PUB"),
          ("a-rootca-private", "A-PRIV"), ("b-rootca-private", "B-PRIV")]⟩
        "b" ⟨"PK", "PU"⟩ "u" "h").2.drop 1)
    ∧ (provisioningCredentials
        ⟨[⟨"a", 0, 0⟩, ⟨"b", 0, 0⟩], [], [],
         [((RootCABucket, RootCACertObjId), "GLOBAL-CERT")],
         [(RootCAPrivateKeyId, "GLOBAL-PRIV"), (RootCAPublicKeyId, "GLOBAL-PUB"),
          ("a-rootca-private", "A-PRIV"), ("b-rootca-private", "B-PRIV")]⟩
        "a" ⟨"PK", "PU"⟩ "u" "h").1
      = (200, some ⟨"h/api/v0/director/a",
          ⟨"PK", ⟨"u", "PU", "GLOBAL-PRIV", some "GLOBAL-CERT"⟩, "GLOBAL-CERT"⟩⟩)
    ∧ ("GLOBAL-PRIV" : String) ≠ "A-PRIV" := by
  refine ⟨rfl, rfl, by decide⟩

theorem and_true_left {a b : Bool} (h : (a && b) = true) : a = true := by
  cases a
  · simp at h
  · rfl

theorem filter_map_fix {α : Type} (l : List α) (f : α → α) (p : α → Bool)
    (hp : ∀ a, p (f a) = p a) (hf : ∀ a, p a = true → f a = a) :
    (l.map f).filter p = l.filter p := by
  induction l with
  | nil => rfl
  | cons a t ih =>
    simp only [List.map_cons, List.filter_cons, hp a]
    cases hpa : p a
    · simp [ih]
    · simp [hf a hpa, ih]

theorem filter_updateStatus1_ne (l : List ObjRow1) (t1 t2 oid : String) (st : ObjectStatus)
    (hne : t1 ≠ t2) :
    (updateStatus1 l t1 oid st).filter (fun r => r.ns == t2)
      = l.filter (fun r => r.ns == t2) := by
  unfold updateStatus1
  apply filter_map_fix
  · intro r
    by_cases hc : (r.ns == t1 && r.object_id == oid) = true
    · rw [if_pos hc]
    · rw [if_neg hc]
  · intro r hr
    have hrns : r.ns = t2 := eq_of_beq hr
    have hc : (r.ns == t1) = false := by
      rw [hrns]
      exact beq_eq_false_iff_ne.mpr (Ne.symm hne)
    rw [if_neg (by simp [hc])]

theorem filter_upsertObject1_ne (l : List ObjRow1) (t1 t2 oid : String) (sz : Int)
    (hne : t1 ≠ t2) :
    (upsertObject1 l t1 oid sz).filter (fun r => r.ns == t2)
      = l.filter (fun r => r.ns == t2) := by
  unfold upsertObject1
  by_cases hf : (findObject1 l t1 oid).isSome
  · rw [if_pos hf]
    apply filter_map_fix
    · intro r
      by_cases hc : (r.ns == t1 && r.object_id == oid) = true
      · rw [if_pos hc]
        have hrns : r.ns = t1 := eq_of_beq (and_true_left hc)
        show (t1 == t2) = (r.ns == t2)
        rw [hrns]
      · rw [if_neg hc]
    · intro r hr
      have hrns : r.ns = t2 := eq_of_beq hr
      have hc : (r.ns == t1) = false := by
        rw [hrns]
        exact beq_eq_false_iff_ne.mpr (Ne.symm hne)
      rw [if_neg (by simp [hc])]
  · rw [if_neg hf, List.filter_append]
    have : (t1 == t2) = false := beq_eq_false_iff_ne.mpr hne
    simp [this]

theorem filter_updateStatus0_ne (l : List ObjRow0) (t1 t2 oid : String) (st : ObjectStatus)
    (hne : t1 ≠ t2) :
    (updateStatus0 l t1 oid st).filter (fun r => r.team_id == t2)
      = l.filter (fun r => r.team_id == t2) := by
  unfold updateStatus0
  apply filter_map_fix
  · intro r
    by_cases hc : (r.team_id == t1 && r.object_id == oid) = true
    · rw [if_pos hc]
    · rw [if_neg hc]
  · intro r hr
    have hrns : r.team_id = t2 := eq_of_beq hr
    have hc : (r.team_id == t1) = false := by
      rw [hrns]
      exact beq_eq_false_iff_ne.mpr (Ne.symm hne)
    rw [if_neg (by simp [hc])]

theorem filter_upsertObject0_ne (l : List ObjRow0) (t1 t2 oid : String) (sz : Int)
    (hne : t1 ≠ t2) :
    (upsertObject0 l t1 oid sz).filter (fun r => r.team_id == t2)
      = l.filter (fun r => r.team_id == t2) := by
  unfold upsertObject0
  by_cases hf : (findObject0 l t1 oid).isSome
  · rw [if_pos hf]
    apply filter_map_fix
    · intro r
      by_cases hc : (r.team_id == t1 && r.object_id == oid) = true
      · rw [if_pos hc]
        have hrns : r.team_id = t1 := eq_of_beq (and_true_left hc)
        show (t1 == t2) = (r.team_id == t2)
        rw [hrns]
      · rw [if_neg hc]
    · intro r hr
      have hrns : r.team_id = t2 := eq_of_beq hr
      have hc : (r.team_id == t1) = false := by
        rw [hrns]
        exact beq_eq_false_iff_ne.mpr (Ne.symm hne)
      rw [if_neg (by simp [hc])]
  · rw [if_neg hf, List.filter_append]
    have : (t1 == t2) = false := beq_eq_false_iff_ne.mpr hne
    simp [this]

theorem filter_putBlob_owner (bl : List (String × String)) (k v t2 : String)
    (hko : (keyOwner k == t2) = false) :
    (putBlob bl k v).filter (fun b => keyOwner b.1 == t2)
      = bl.filter (fun b => keyOwner b.1 == t2) := by
  unfold putBlob
  by_cases hf : (bl.find? (fun b => b.1 == k)).isSome
  · rw [if_pos hf]
    apply filter_map_fix
    · intro b
      by_cases hb : (b.1 == k) = true
      · rw [if_pos hb]
        have : b.1 = k := eq_of_beq hb
        show (keyOwner k == t2) = (keyOwner b.1 == t2)
        rw [this]
      · rw [if_neg hb]
    · intro b hb
      by_cases hbk : (b.1 == k) = true
      · exfalso
        have hk : b.1 = k := eq_of_beq hbk
        rw [hk] at hb
        rw [hb] at hko
        exact Bool.noConfusion hko
      · rw [if_neg hbk]
  · rw [if_neg hf, List.filter_append]
    simp [hko]

theorem filter_putBlob2_bucket (bl : List ((String × String) × String)) (bk k v t2 : String)
    (hbk : (bk == t2) = false) :
    (putBlob2 bl bk k v).filter (fun b => b.1.1 == t2)
      = bl.filter (fun b => b.1.1 == t2) := by
  unfold putBlob2
  by_cases hf : (bl.find? (fun b => b.1.1 == bk && b.1.2 == k)).isSome
  · rw [if_pos hf]
    apply filter_map_fix
    · intro b
      by_cases hb : (b.1.1 == bk && b.1.2 == k) = true
      · rw [if_pos hb]
        have : b.1.1 = bk := eq_of_beq (and_true_left hb)
        show (bk == t2) = (b.1.1 == t2)
        rw [this]
      · rw [if_neg hb]
    · intro b hb
      have hb1 : b.1.1 = t2 := eq_of_beq hb
      have hc : (b.1.1 == bk) = false := by
        rw [hb1]
        exact beq_eq_false_iff_ne.mpr (Ne.symm (beq_eq_false_iff_ne.mp hbk))
      rw [if_neg (by simp [hc])]
  · rw [if_neg hf, List.filter_append]
    simp [hbk]

theorem downloadGet_scrub (s : St1) (t1 t2 pfx sfx : String)
    (hne : t1 ≠ t2) (h1 : noSlash t1) :
    (downloadGet (scrub1 t2 s) t1 pfx sfx).2 = (downloadGet s t1 pfx sfx).2 := by
  have hfo : findObject1 (scrub1 t2 s).objects t1 (pfx ++ sfx)
      = findObject1 s.objects t1 (pfx ++ sfx) := by
    unfold findObject1 scrub1
    apply find?_filter_of_imp
    intro r hr
    have h : r.ns = t1 := eq_of_beq (and_true_left hr)
    simp [h, hne]
  have hgb : getBlob (scrub1 t2 s).blobs (bucketId1 t1 pfx sfx)
      = getBlob s.blobs (bucketId1 t1 pfx sfx) := by
    unfold getBlob scrub1
    rw [find?_filter_of_imp]
    intro b hb
    have h : b.1 = bucketId1 t1 pfx sfx := eq_of_beq hb
    rw [h, keyOwner_bucketId1 t1 pfx sfx h1]
    simp [hne]
  cases hA : findObject1 s.objects t1 (pfx ++ sfx) with
  | none => simp [downloadGet, hA, hfo.trans hA]
  | some r =>
    cases hB : getBlob s.blobs (bucketId1 t1 pfx sfx) with
    | none => simp [downloadGet, hA, hB, hfo.trans hA, hgb.trans hB]
    | some c => simp [downloadGet, hA, hB, hfo.trans hA, hgb.trans hB]

theorem headObject_scrub (s : St0) (t1 t2 pfx sfx : String) (hne : t1 ≠ t2) :
    (headObject (scrub0 t2 s) t1 pfx sfx).2 = (headObject s t1 pfx sfx).2 := by
  have hfo : findObject0 (scrub0 t2 s).objects t1 (pfx ++ sfx)
      = findObject0 s.objects t1 (pfx ++ sfx) := by
    unfold findObject0 scrub0
    apply find?_filter_of_imp
    intro r hr
    have h : r.team_id = t1 := eq_of_beq (and_true_left hr)
    simp [h, hne]
  rw [headObject_eq, headObject_eq, hfo]

theorem downloadGet0_scrub (s : St0) (t1 t2 pfx sfx : String) (hne : t1 ≠ t2) :
    (downloadGet0 (scrub0 t2 s) t1 pfx sfx).2 = (downloadGet0 s t1 pfx sfx).2 := by
  have hfo : findObject0 (scrub0 t2 s).objects t1 (pfx ++ sfx)
      = findObject0 s.objects t1 (pfx ++ sfx) := by
    unfold findObject0 scrub0
    apply find?_filter_of_imp
    intro r hr
    have h : r.team_id = t1 := eq_of_beq (and_true_left hr)
    simp [h, hne]
  have hgb : getBlob2 (scrub0 t2 s).blobs t1 ("treehub/" ++ pfx ++ "/" ++ sfx)
      = getBlob2 s.blobs t1 ("treehub/" ++ pfx ++ "/" ++ sfx) := by
    unfold getBlob2 scrub0
    rw [find?_filter_of_imp]
    intro b hb
    have h : b.1.1 = t1 := eq_of_beq (and_true_left hb)
    simp [h, hne]
  cases hA : findObject0 s.objects t1 (pfx ++ sfx) with
  | none => simp [downloadGet0, hA, hfo.trans hA]
  | some r =>
    cases hB : getBlob2 s.blobs t1 ("treehub/" ++ pfx ++ "/" ++ sfx) with
    | none => simp [downloadGet0, hA, hB, hfo.trans hA, hgb.trans hB]
    | some c2 => simp [downloadGet0, hA, hB, hfo.trans hA, hgb.trans hB]

/-- C10: tenant isolation of the object-sync path.  For distinct tenants t1
and t2 (t1 slash-free, as express path segments are): every store operation
issued by the namespace-scoped upload and download for t1, and by the
team-scoped upload, existence probe and download for t1, is keyed by t1 —
its relational namespace/team column, its blob bucket, or the leading
segment of its one-string blob key; both uploads leave t2's Object rows and
t2's blobs unchanged; and the answers of the existence probe and of both
downloads are unchanged when t2's entire slice is removed from the store. -/
theorem tenant_isolation (s : St1) (s0 : St0) (t1 t2 pfx sfx c : String)
    (clen : Option String) (ok : Bool) (hne : t1 ≠ t2) (h1 : noSlash t1) :
    ((uploadPut s t1 pfx sfx c clen ok).2.2.all (fun op => opNs op == some t1) = true)
    ∧ ((uploadPut s t1 pfx sfx c clen ok).1.objects.filter (fun r => r.ns == t2)
        = s.objects.filter (fun r => r.ns == t2))
    ∧ ((uploadPut s t1 pfx sfx c clen ok).1.blobs.filter (fun b => keyOwner b.1 == t2)
        = s.blobs.filter (fun b => keyOwner b.1 == t2))
    ∧ ((downloadGet s t1 pfx sfx).2.2.all (fun op => opNs op == some t1) = true)
    ∧ ((downloadGet (scrub1 t2 s) t1 pfx sfx).2 = (downloadGet s t1 pfx sfx).2)
    ∧ ((uploadPost s0 t1 pfx sfx c clen ok).2.2.all (fun op => opNs op == some t1) = true)
    ∧ ((uploadPost s0 t1 pfx sfx c clen ok).1.objects.filter (fun r => r.team_id == t2)
        = s0.objects.filter (fun r => r.team_id == t2))
    ∧ ((uploadPost s0 t1 pfx sfx c clen ok).1.blobs.filter (fun b => b.1.1 == t2)
        = s0.blobs.filter (fun b => b.1.1 == t2))
    ∧ ((headObject s0 t1 pfx sfx).2.2.all (fun op => opNs op == some t1) = true)
    ∧ ((headObject (scrub0 t2 s0) t1 pfx sfx).2 = (headObject s0 t1 pfx sfx).2)
    ∧ ((downloadGet0 s0 t1 pfx sfx).2.2.all (fun op => opNs op == some t1) = true)
    ∧ ((downloadGet0 (scrub0 t2 s0) t1 pfx sfx).2 = (downloadGet0 s0 t1 pfx sfx).2) := by
  have hbeq : (t1 == t2) = false := beq_eq_false_iff_ne.mpr hne
  have hko : (keyOwner (bucketId1 t1 pfx sfx) == t2) = false := by
    rw [keyOwner_bucketId1 t1 pfx sfx h1]
    exact hbeq
  refine ⟨?_, ?_, ?_, ?_, downloadGet_scrub s t1 t2 pfx sfx hne h1, ?_, ?_, ?_, ?_,
    headObject_scrub s0 t1 t2 pfx sfx hne, ?_,
    downloadGet0_scrub s0 t1 t2 pfx sfx hne⟩
  · rcases hp : parseIntJS clen with _ | n
    · simp [uploadPut, hp]
    · by_cases hz : n = 0
      · simp [uploadPut, hp, hz]
      · cases ok <;> simp [uploadPut, hp, hz, opNs, keyOwner_bucketId1 t1 pfx sfx h1]
  · rcases hp : parseIntJS clen with _ | n
    · simp [uploadPut, hp]
    · by_cases hz : n = 0
      · simp [uploadPut, hp, hz]
      · cases ok
        · simp [uploadPut, hp, hz]
        · simp only [uploadPut, hp, hz, if_false, if_true, Bool.false_eq_true, ite_false]
          rw [filter_updateStatus1_ne _ t1 t2 _ _ hne, filter_upsertObject1_ne _ t1 t2 _ _ hne]
  · rcases hp : parseIntJS clen with _ | n
    · simp [uploadPut, hp]
    · by_cases hz : n = 0
      · simp [uploadPut, hp, hz]
      · cases ok
        · simp [uploadPut, hp, hz]
        · rw [show ((uploadPut s t1 pfx sfx c clen true).1.blobs)
              = putBlob s.blobs (bucketId1 t1 pfx sfx) c from by simp [uploadPut, hp, hz]]
          rw [filter_putBlob_owner _ _ _ _ hko]
  · cases hA : findObject1 s.objects t1 (pfx ++ sfx) with
    | none => simp [downloadGet, hA, opNs]
    | some r =>
      cases hB : getBlob s.blobs (bucketId1 t1 pfx sfx) with
      | none => simp [downloadGet, hA, hB, opNs, keyOwner_bucketId1 t1 pfx sfx h1]
      | some c2 => simp [downloadGet, hA, hB, opNs, keyOwner_bucketId1 t1 pfx sfx h1]
  · rcases hp : parseIntJS clen with _ | n
    · simp [uploadPost, hp]
    · by_cases hz : n = 0
      · simp [uploadPost, hp, hz]
      · by_cases ht : s0.teams.countP (fun t => t == t1) = 0
        · simp [uploadPost, hp, hz, ht, opNs]
        · cases ok <;> simp [uploadPost, hp, hz, ht, opNs]
  · rcases hp : parseIntJS clen with _ | n
    · simp [uploadPost, hp]
    · by_cases hz : n = 0
      · simp [uploadPost, hp, hz]
      · by_cases ht : s0.teams.countP (fun t => t == t1) = 0
        · simp [uploadPost, hp, hz, ht]
        · cases ok
          · simp [uploadPost, hp, hz, ht]
          · rw [show ((uploadPost s0 t1 pfx sfx c clen true).1.objects)
                = updateStatus0 (upsertObject0 s0.objects t1 (pfx ++ sfx) n) t1 (pfx ++ sfx)
                    .uploaded from by simp [uploadPost, hp, hz, ht]]
            rw [filter_updateStatus0_ne _ t1 t2 _ _ hne,
              filter_upsertObject0_ne _ t1 t2 _ _ hne]
  · rcases hp : parseIntJS clen with _ | n
    · simp [uploadPost, hp]
    · by_cases hz : n = 0
      · simp [uploadPost, hp, hz]
      · by_cases ht : s0.teams.countP (fun t => t == t1) = 0
        · simp [uploadPost, hp, hz, ht]
        · cases ok
          · simp [uploadPost, hp, hz, ht]
          · rw [show ((uploadPost s0 t1 pfx sfx c clen true).1.blobs)
                = putBlob2 s0.blobs t1 ("treehub/" ++ pfx ++ "/" ++ sfx) c from by
                  simp [uploadPost, hp, hz, ht]]
            rw [filter_putBlob2_bucket _ t1 _ _ t2 hbeq]
  · rw [headObject_eq]
    cases hA : (findObject0 s0.objects t1 (pfx ++ sfx)).isSome <;> simp [hA, opNs]
  · cases hA : findObject0 s0.objects t1 (pfx ++ sfx) with
    | none => simp [downloadGet0, hA, opNs]
    | some r =>
      cases hB : getBlob2 s0.blobs t1 ("treehub/" ++ pfx ++ "/" ++ sfx) with
      | none => simp [downloadGet0, hA, hB, opNs]
      | some c2 => simp [downloadGet0, hA, hB, opNs]

/-- Witness for C10 at a concrete two-tenant store. -/
theorem tenant_isolation_witness :
    (("t1" : String) ≠ "t2") ∧ noSlash "t1"
    ∧ ((uploadPut ⟨["t1", "t2"], [⟨"t1", "aa", 1, .uploaded⟩, ⟨"t2", "bb", 2, .uploading⟩],
          [("t1/a/a", "v"), ("t2/b/b", "w")]⟩ "t1" "ab" "cd" "x" (some "7") true).1.objects.filter
          (fun r => r.ns == "t2")
        = [⟨"t2", "bb", 2, .uploading⟩])
    ∧ ((headObject (scrub0 "t2" ⟨["t1", "t2"],
          [⟨"t1", "abcd", 1, .uploaded⟩, ⟨"t2", "abcd", 2, .uploading⟩],
          [(("t1", "treehub/ab/cd"), "v"), (("t2", "treehub/ab/cd"), "w")]⟩) "t1" "ab" "cd").2
        = (headObject ⟨["t1", "t2"],
          [⟨"t1", "abcd", 1, .uploaded⟩, ⟨"t2", "abcd", 2, .uploading⟩],
          [(("t1", "treehub/ab/cd"), "v"), (("t2", "treehub/ab/cd"), "w")]⟩ "t1" "ab" "cd").2)
    ∧ ((downloadGet0 (scrub0 "t2" ⟨["t1", "t2"],
          [⟨"t1", "abcd", 1, .uploaded⟩, ⟨"t2", "abcd", 2, .uploading⟩],
          [(("t1", "treehub/ab/cd"), "v"), (("t2", "treehub/ab/cd"), "w")]⟩) "t1" "ab" "cd").2
        = (downloadGet0 ⟨["t1", "t2"],
          [⟨"t1", "abcd", 1, .uploaded⟩, ⟨"t2", "abcd", 2, .uploading⟩],
          [(("t1", "treehub/ab/cd"), "v"), (("t2", "treehub/ab/cd"), "w")]⟩ "t1" "ab" "cd").2) := by
  have h := tenant_isolation
    ⟨["t1", "t2"], [⟨"t1", "aa", 1, .uploaded⟩, ⟨"t2", "bb", 2, .uploading⟩],
      [("t1/a/a", "v"), ("t2/b/b", "w")]⟩
    ⟨["t1", "t2"], [⟨"t1", "abcd", 1, .uploaded⟩, ⟨"t2", "abcd", 2, .uploading⟩],
      [(("t1", "treehub/ab/cd"), "v"), (("t2", "treehub/ab/cd"), "w")]⟩
    "t1" "t2" "ab" "cd" "x" (some "7") true (by decide) (by decide)
  exact ⟨by decide, by decide, h.2.1.trans (by decide),
    h.2.2.2.2.2.2.2.2.2.1, h.2.2.2.2.2.2.2.2.2.2.2⟩

end Uptane
